import Mathlib

/-!
Shallow embedding of the arduino_installer_gui flashing workflow
(`src/main.rs`): board profile registry, port discovery, command builder,
flash executor rendering, and the workflow state machine driven by the
GUI intents.  External effects (the OS port enumeration and the spawned
`avrdude` subprocess) are modelled as inputs carried by the intents; the
calls the program makes to the outside are recorded in an explicit
external-call log so that claims about when discovery or execution
happens can be stated.
-/

/-- USB port metadata of the serialport crate's `UsbPortInfo`. -/
structure UsbPortInfo where
  vid : Nat
  pid : Nat
  serial_number : Option String
  manufacturer : Option String
  product : Option String
deriving DecidableEq

/-- Port-type classification of the serialport crate's `SerialPortType`. -/
inductive SerialPortType where
  | UsbPort (info : UsbPortInfo)
  | PciPort
  | BluetoothPort
  | Unknown
deriving DecidableEq

/-- One OS-reported serial port (`serialport::SerialPortInfo`): a name and a type. -/
structure SerialPortInfo where
  port_name : String
  port_type : SerialPortType
deriving DecidableEq

/-- Enumeration of all supported Arduino boards (`enum ArduinoBoard`); the
default (`#[derive(Default)]` with `#[default]`) is `ArduinoUno`. -/
inductive ArduinoBoard where
  | ArduinoUno
deriving DecidableEq

/-- A specification used to install a program to a board (`struct BoardSpec`). -/
structure BoardSpec where
  programmer : String
  partno : String
  do_chip_erase : Bool
deriving DecidableEq

/-- The specification required to install a program to the board
(`ArduinoBoard::spec`). -/
def ArduinoBoard.spec : ArduinoBoard → BoardSpec
  | .ArduinoUno =>
    { programmer := "arduino", partno := "atmega328p", do_chip_erase := true }

/-- Captured output of a finished subprocess (`std::process::Output`):
exit status and raw stdout/stderr bytes. -/
structure Output where
  status : Int
  stdout : List Nat
  stderr : List Nat
deriving DecidableEq

/-- GUI program state (`struct ArduinoInstallerGui`). Paths are modelled as
strings. -/
structure ArduinoInstallerGui where
  file_path : Option String
  selected_board : ArduinoBoard
  selected_port : Option SerialPortInfo
  available_ports : List SerialPortInfo
  port_scan_error : Option String
  general_error : Option String
  output : Option String
  used_command : Option String
deriving DecidableEq

/-- The `#[derive(Default)]` state: empty options, empty port list, default
board. -/
def ArduinoInstallerGui.defaultState : ArduinoInstallerGui :=
  { file_path := none
    selected_board := .ArduinoUno
    selected_port := none
    available_ports := []
    port_scan_error := none
    general_error := none
    output := none
    used_command := none }

/-- Scan for available ports (`fn portscan`): the OS enumeration result is
the input; the function returns the new `available_ports` and
`port_scan_error` field values. -/
def portscan (res : Except String (List SerialPortInfo)) :
    List SerialPortInfo × Option String :=
  match res with
  | .ok ports => (ports, none)
  | .error e => ([], some ("ERROR: " ++ e))

/-- Rust `Debug` escaping of one character inside a quoted string
(quote and backslash escaped; the strings used by this program contain no
control characters). -/
def rustEscapeChar (c : Char) : String :=
  if c = '\"' then "\\\"" else if c = '\\' then "\\\\" else String.singleton c

/-- Rust `Debug` rendering of a string: escaped and wrapped in quotes. -/
def rustDebugQuote (s : String) : String :=
  "\"" ++ String.join (s.data.map rustEscapeChar) ++ "\""

/-- Rust `Debug` rendering of a `std::process::Command`: the program and
each argument `Debug`-quoted, separated by spaces. -/
def commandDebug (program : String) (args : List String) : String :=
  String.intercalate " " ((program :: args).map rustDebugQuote)

/-- The argument vector built by `fn avrdude` for the spawned command. -/
def avrdudeArgs (spec : BoardSpec) (port : SerialPortInfo)
    (program_to_flash : String) : List String :=
  ["-c", spec.programmer, "-p", spec.partno, "-P", port.port_name,
   "-D", "-U", "flash:w:" ++ program_to_flash]
    ++ (if spec.do_chip_erase then ["-e"] else [])

/-- The pure content of `fn avrdude`: the rendered command string
(`format!("CMD: {:?}", cmd)`) and the argument vector handed to the
subprocess; the subprocess result itself is an environment input supplied
at the Flash intent. -/
def avrdude (spec : BoardSpec) (port : SerialPortInfo)
    (program_to_flash : String) : String × List String :=
  ("CMD: " ++ commandDebug "avrdude" (avrdudeArgs spec port program_to_flash),
   avrdudeArgs spec port program_to_flash)

/-- Whether a byte is a UTF-8 continuation byte. -/
def isUtf8Cont (b : Nat) : Bool :=
  0x80 ≤ b && b < 0xC0

/-- UTF-8 decoding of a byte list (the validation performed by Rust's
`String::from_utf8`): rejects stray continuation bytes, overlong forms,
surrogates and out-of-range code points. -/
def utf8DecodeList : List Nat → Option (List Char)
  | [] => some []
  | b :: bs =>
    if b < 0x80 then
      (utf8DecodeList bs).map (fun cs => Char.ofNat b :: cs)
    else if b < 0xC2 then none
    else if b < 0xE0 then
      match bs with
      | b1 :: bs2 =>
        if isUtf8Cont b1 then
          (utf8DecodeList bs2).map
            (fun cs => Char.ofNat ((b - 0xC0) * 0x40 + (b1 - 0x80)) :: cs)
        else none
      | [] => none
    else if b < 0xF0 then
      match bs with
      | b1 :: b2 :: bs2 =>
        if isUtf8Cont b1 && isUtf8Cont b2 then
          let cp := (b - 0xE0) * 0x1000 + (b1 - 0x80) * 0x40 + (b2 - 0x80)
          if cp < 0x800 ∨ (0xD800 ≤ cp ∧ cp < 0xE000) then none
          else (utf8DecodeList bs2).map (fun cs => Char.ofNat cp :: cs)
        else none
      | _ => none
    else if b < 0xF5 then
      match bs with
      | b1 :: b2 :: b3 :: bs2 =>
        if isUtf8Cont b1 && isUtf8Cont b2 && isUtf8Cont b3 then
          let cp := (b - 0xF0) * 0x40000 + (b1 - 0x80) * 0x1000
            + (b2 - 0x80) * 0x40 + (b3 - 0x80)
          if cp < 0x10000 ∨ 0x110000 ≤ cp then none
          else (utf8DecodeList bs2).map (fun cs => Char.ofNat cp :: cs)
        else none
      | _ => none
    else none

/-- `String::from_utf8` on captured bytes: a string on success, `none` on
invalid encoding. -/
def utf8DecodeString (bytes : List Nat) : Option String :=
  (utf8DecodeList bytes).map (fun cs => String.mk cs)

/-- Rendering of `format!("Flashing: {:?}", res.map(|out| String::from_utf8(out.stdout)))`
without the prefix: the `Debug` form of
`Result<Result<String, FromUtf8Error>, io::Error>` (the `FromUtf8Error`
field dump is abbreviated; no claim inspects it). The launch-error input
string stands for the `Debug` rendering of the `io::Error`. -/
def fmtFlashResult : Except String Output → String
  | .ok out =>
    match utf8DecodeString out.stdout with
    | some s => "Ok(Ok(" ++ rustDebugQuote s ++ "))"
    | none => "Ok(Err(FromUtf8Error \x7b .. \x7d))"
  | .error e => "Err(" ++ e ++ ")"

/-- A call the program makes to the outside world: the OS port enumeration
(`serialport::available_ports`) or spawning a subprocess
(`Command::output`). -/
inductive ExtCall where
  | scanPorts
  | runCommand (program : String) (args : List String)
deriving DecidableEq

/-- A user intent forwarded by the presentation layer, carrying the result
the environment produces for the triggered external call: the file dialog
result, the OS scan result, or the subprocess launch result. -/
inductive Intent where
  | selectFile (res : Option String)
  | selectBoard (b : ArduinoBoard)
  | selectPort (d : SerialPortInfo)
  | rescan (res : Except String (List SerialPortInfo))
  | flash (res : Except String Output)

/-- One workflow transition of `ArduinoInstallerGui::update`, returning the
new state and the log of external calls made during the transition. -/
def stepCalls (s : ArduinoInstallerGui) (i : Intent) :
    ArduinoInstallerGui × List ExtCall :=
  match i with
  | .selectFile res => ({ s with file_path := res }, [])
  | .selectBoard b => ({ s with selected_board := b }, [])
  | .selectPort d => ({ s with selected_port := some d }, [])
  | .rescan res =>
    ({ s with available_ports := (portscan res).1
              port_scan_error := (portscan res).2 }, [.scanPorts])
  | .flash res =>
    match s.file_path, s.selected_port with
    | some path, some port =>
      ({ s with
          output := some ("Flashing: " ++ fmtFlashResult res)
          used_command := some (avrdude s.selected_board.spec port path).1 },
       [.runCommand "avrdude" (avrdude s.selected_board.spec port path).2])
    | none, _ =>
      ({ s with general_error := some "Error: no file selected" }, [])
    | some _, none =>
      ({ s with general_error := some "Error: No port selected" }, [])

/-- The state after a transition, external calls discarded. -/
def step (s : ArduinoInstallerGui) (i : Intent) : ArduinoInstallerGui :=
  (stepCalls s i).1

/-- `ArduinoInstallerGui::new`: the default state followed by an immediate
`portscan`, together with the external calls made (one port scan). -/
def newState (res : Except String (List SerialPortInfo)) :
    ArduinoInstallerGui × List ExtCall :=
  ({ ArduinoInstallerGui.defaultState with
      available_ports := (portscan res).1
      port_scan_error := (portscan res).2 }, [.scanPorts])

/-- Which intents the GUI can actually emit in a given state: the port
combo box only offers entries of `available_ports`, every other intent is
unrestricted. -/
def guiOffers (s : ArduinoInstallerGui) : Intent → Prop
  | .selectPort d => d ∈ s.available_ports
  | _ => True

/-- States reachable by starting the program and any sequence of
GUI-emittable intents. -/
inductive Reachable : ArduinoInstallerGui → Prop
  | init (res : Except String (List SerialPortInfo)) :
      Reachable (newState res).1
  | next (s : ArduinoInstallerGui) (i : Intent) :
      Reachable s → guiOffers s i → Reachable (step s i)

/-- The port used by the concrete end-to-end scenario of the claims. -/
def unoUsbPort : SerialPortInfo :=
  { port_name := "/dev/ttyACM0"
    port_type := .UsbPort
      { vid := 0x2341, pid := 0x0043, serial_number := none,
        manufacturer := none, product := none } }

/-- A state with the scenario file and port selected. -/
def bothSelectedState : ArduinoInstallerGui :=
  { file_path := some "/tmp/firmware.elf"
    selected_board := .ArduinoUno
    selected_port := some unoUsbPort
    available_ports := [unoUsbPort]
    port_scan_error := none
    general_error := none
    output := none
    used_command := none }

/-- C5: for board `ArduinoUno`, port named `/dev/ttyACM0` and file
`/tmp/firmware.elf`, the built argument vector is exactly
`["-c","arduino","-p","atmega328p","-P","/dev/ttyACM0","-D","-U","flash:w:/tmp/firmware.elf","-e"]`,
and triggering Flash in a state with that file and port selected executes
`avrdude` with exactly that vector. -/
theorem c5_uno_argument_vector :
    avrdudeArgs ArduinoBoard.ArduinoUno.spec unoUsbPort "/tmp/firmware.elf" =
      ["-c", "arduino", "-p", "atmega328p", "-P", "/dev/ttyACM0", "-D", "-U",
       "flash:w:/tmp/firmware.elf", "-e"] ∧
    (stepCalls bothSelectedState (.flash (.error "launch failed"))).2 =
      [ExtCall.runCommand "avrdude"
        ["-c", "arduino", "-p", "atmega328p", "-P", "/dev/ttyACM0", "-D", "-U",
         "flash:w:/tmp/firmware.elf", "-e"]] :=
  ⟨rfl, rfl⟩

/-- C7: a successful rescan replaces the port list with exactly the
OS-reported list (empty allowed) and clears the discovery error; a failing
rescan empties the port list and stores a non-empty discovery error. -/
theorem c7_rescan_round_trip (s : ArduinoInstallerGui)
    (ps : List SerialPortInfo) (e : String) :
    ((step s (.rescan (.ok ps))).available_ports = ps ∧
     (step s (.rescan (.ok ps))).port_scan_error = none) ∧
    ((step s (.rescan (.error e))).available_ports = [] ∧
     (step s (.rescan (.error e))).port_scan_error = some ("ERROR: " ++ e) ∧
     ("ERROR: " ++ e) ≠ "") := by
  refine ⟨⟨rfl, rfl⟩, rfl, rfl, fun h => ?_⟩
  have h2 : ("ERROR: " ++ e).data = ("" : String).data := by rw [h]
  rw [String.data_append] at h2
  simp at h2

/-- C8: a rescan, successful or failed, changes only the port list and the
discovery error; the selected file, board, port, general error, command
rendering and outcome rendering are all preserved. -/
theorem c8_rescan_frame (s : ArduinoInstallerGui)
    (r : Except String (List SerialPortInfo)) :
    (step s (.rescan r)).file_path = s.file_path ∧
    (step s (.rescan r)).selected_board = s.selected_board ∧
    (step s (.rescan r)).selected_port = s.selected_port ∧
    (step s (.rescan r)).general_error = s.general_error ∧
    (step s (.rescan r)).used_command = s.used_command ∧
    (step s (.rescan r)).output = s.output :=
  ⟨rfl, rfl, rfl, rfl, rfl, rfl⟩

/-- C9: a Flash intent that fails a selection precondition (file missing or
port missing) modifies only the general error: command rendering, outcome
rendering, selected file, board, port, port list and discovery error are
unchanged. -/
theorem c9_flash_precondition_frame (s : ArduinoInstallerGui)
    (r : Except String Output)
    (h : s.file_path = none ∨ s.selected_port = none) :
    (step s (.flash r)).file_path = s.file_path ∧
    (step s (.flash r)).selected_board = s.selected_board ∧
    (step s (.flash r)).selected_port = s.selected_port ∧
    (step s (.flash r)).available_ports = s.available_ports ∧
    (step s (.flash r)).port_scan_error = s.port_scan_error ∧
    (step s (.flash r)).used_command = s.used_command ∧
    (step s (.flash r)).output = s.output := by
  rcases h with h | h
  · simp [step, stepCalls, h]
  · cases hf : s.file_path <;> simp [step, stepCalls, h, hf]

/-- Witness for C9 at the default state (no file selected). -/
theorem c9_flash_precondition_frame_witness :
    (ArduinoInstallerGui.defaultState.file_path = none ∨
     ArduinoInstallerGui.defaultState.selected_port = none) ∧
    (step ArduinoInstallerGui.defaultState (.flash (.error "x"))).general_error =
      some "Error: no file selected" ∧
    (step ArduinoInstallerGui.defaultState (.flash (.error "x"))).output =
      ArduinoInstallerGui.defaultState.output :=
  ⟨Or.inl rfl, rfl,
   (c9_flash_precondition_frame ArduinoInstallerGui.defaultState
     (.error "x") (Or.inl rfl)).2.2.2.2.2.2⟩

/-- A state with file and port selected and a stale general error still
present. -/
def staleErrorState : ArduinoInstallerGui :=
  { bothSelectedState with general_error := some "Error: No port selected" }

/-- C1 counterexample: in a state with both file and port selected and a
previously set general error, triggering Flash leaves the general error
present — it does not become absent. -/
theorem c1_counterexample :
    staleErrorState.file_path = some "/tmp/firmware.elf" ∧
    staleErrorState.selected_port = some unoUsbPort ∧
    (step staleErrorState (.flash (.error "launch failed"))).general_error =
      some "Error: No port selected" :=
  ⟨rfl, rfl, rfl⟩

/-- C1 amended: when both a file and a port are selected, Flash resolves
the board profile, builds and executes the command, and stores the
rendered command string and the rendered outcome string; every other
field, including the general error, is left unchanged (the general error
is not cleared). -/
theorem c1_flash_success_effect (s : ArduinoInstallerGui) (path : String)
    (port : SerialPortInfo) (r : Except String Output)
    (hf : s.file_path = some path) (hp : s.selected_port = some port) :
    step s (.flash r) =
      { s with
        output := some ("Flashing: " ++ fmtFlashResult r)
        used_command := some (avrdude s.selected_board.spec port path).1 } ∧
    (stepCalls s (.flash r)).2 =
      [ExtCall.runCommand "avrdude" (avrdude s.selected_board.spec port path).2] := by
  constructor <;> simp [step, stepCalls, hf, hp]

/-- Witness for C1 amended at the concrete scenario state. -/
theorem c1_flash_success_effect_witness :
    step staleErrorState (.flash (.error "launch failed")) =
      { staleErrorState with
        output := some "Flashing: Err(launch failed)"
        used_command := some (avrdude ArduinoBoard.ArduinoUno.spec unoUsbPort
          "/tmp/firmware.elf").1 } :=
  (c1_flash_success_effect staleErrorState "/tmp/firmware.elf" unoUsbPort
    (.error "launch failed") rfl rfl).1

/-- C2 counterexample: with neither file nor port selected, Flash stores
the general error string "Error: no file selected", which is not the
claimed string "no file selected". -/
theorem c2_counterexample :
    (step ArduinoInstallerGui.defaultState (.flash (.error "x"))).general_error =
      some "Error: no file selected" ∧
    "Error: no file selected" ≠ "no file selected" :=
  ⟨rfl, by decide⟩

/-- C2 amended: Flash precedence with the exact stored strings — no file
selected (with or without a port) sets the general error to
"Error: no file selected"; a file but no port sets it to
"Error: No port selected"; with both selected no general error is
produced (the field is unchanged) and the command is built and executed. -/
theorem c2_flash_precedence (s : ArduinoInstallerGui) (r : Except String Output) :
    (s.file_path = none →
      (step s (.flash r)).general_error = some "Error: no file selected") ∧
    (∀ path, s.file_path = some path → s.selected_port = none →
      (step s (.flash r)).general_error = some "Error: No port selected") ∧
    (∀ path port, s.file_path = some path → s.selected_port = some port →
      (step s (.flash r)).general_error = s.general_error ∧
      (stepCalls s (.flash r)).2 =
        [ExtCall.runCommand "avrdude" (avrdude s.selected_board.spec port path).2]) := by
  refine ⟨fun h => ?_, fun path hf hp => ?_, fun path port hf hp => ⟨?_, ?_⟩⟩
  · simp [step, stepCalls, h]
  · simp [step, stepCalls, hf, hp]
  · simp [step, stepCalls, hf, hp]
  · simp [stepCalls, hf, hp]

/-- A state with a file selected but no port. -/
def fileOnlyState : ArduinoInstallerGui :=
  { ArduinoInstallerGui.defaultState with file_path := some "/tmp/firmware.elf" }

/-- Witness for C2 amended covering all three precedence branches at
concrete states. -/
theorem c2_flash_precedence_witness :
    (step ArduinoInstallerGui.defaultState (.flash (.error "x"))).general_error =
      some "Error: no file selected" ∧
    (step fileOnlyState (.flash (.error "x"))).general_error =
      some "Error: No port selected" ∧
    (step bothSelectedState (.flash (.error "x"))).general_error =
      bothSelectedState.general_error :=
  ⟨(c2_flash_precedence ArduinoInstallerGui.defaultState (.error "x")).1 rfl,
   (c2_flash_precedence fileOnlyState (.error "x")).2.1 "/tmp/firmware.elf" rfl rfl,
   ((c2_flash_precedence bothSelectedState (.error "x")).2.2 "/tmp/firmware.elf"
     unoUsbPort rfl rfl).1⟩

/-- C3 counterexample: program start (`ArduinoInstallerGui::new`) already
performs a port scan, before any rescan intent — discovery is invoked
automatically at startup. -/
theorem c3_counterexample :
    ExtCall.scanPorts ∈ (newState (.ok [])).2 := by
  simp [newState]

/-- C3 amended: port discovery is invoked exactly once automatically at
program start, and thereafter exactly when (and only when) an explicit
rescan intent fires: a transition emits a scan call if and only if its
intent is a rescan, and never more than one (no periodic scan, no internal
retry). -/
theorem c3_scan_invocations (s : ArduinoInstallerGui) (i : Intent)
    (r : Except String (List SerialPortInfo)) :
    (newState r).2 = [ExtCall.scanPorts] ∧
    (ExtCall.scanPorts ∈ (stepCalls s i).2 ↔ ∃ res, i = Intent.rescan res) ∧
    (stepCalls s i).2.length ≤ 1 := by
  refine ⟨rfl, ?_, ?_⟩
  · cases i with
    | selectFile res => simp [stepCalls]
    | selectBoard b => simp [stepCalls]
    | selectPort d => simp [stepCalls]
    | rescan res => simp [stepCalls]
    | flash res =>
      cases hf : s.file_path <;> cases hp : s.selected_port <;>
        simp [stepCalls, hf, hp]
  · cases i with
    | selectFile res => simp [stepCalls]
    | selectBoard b => simp [stepCalls]
    | selectPort d => simp [stepCalls]
    | rescan res => simp [stepCalls]
    | flash res =>
      cases hf : s.file_path <;> cases hp : s.selected_port <;>
        simp [stepCalls, hf, hp]

/-- C4 counterexample: two successful launches with identical stdout but
different exit statuses and different stderr produce identical stored
outcomes — the stored outcome cannot carry the exit status or the stderr. -/
theorem c4_counterexample :
    (step bothSelectedState (.flash (.ok ⟨0, [104, 105], []⟩))).output =
      (step bothSelectedState (.flash (.ok ⟨1, [104, 105], [101]⟩))).output ∧
    (0 : Int) ≠ 1 ∧ ([] : List Nat) ≠ [101] :=
  ⟨rfl, by decide, by decide⟩

/-- C4 amended: for a flash attempt whose launch succeeds, the stored
outcome is a function of the tool's stdout alone (exit status and stderr
are not included), and invalid text encoding in stdout is surfaced as a
decoding-failure indicator in the stored outcome rather than causing a
crash. -/
theorem c4_outcome_stdout_only (s : ArduinoInstallerGui) (path : String)
    (port : SerialPortInfo) (out1 out2 : Output)
    (hf : s.file_path = some path) (hp : s.selected_port = some port)
    (hstd : out1.stdout = out2.stdout) :
    (step s (.flash (.ok out1))).output = (step s (.flash (.ok out2))).output ∧
    (utf8DecodeString out1.stdout = none →
      (step s (.flash (.ok out1))).output =
        some "Flashing: Ok(Err(FromUtf8Error \x7b .. \x7d))") := by
  constructor
  · simp [step, stepCalls, hf, hp, fmtFlashResult, hstd]
  · intro hdec
    simp [step, stepCalls, hf, hp, fmtFlashResult, hdec]

/-- Witness for C4 amended: a concrete launch whose stdout is the invalid
byte 0xFF. -/
theorem c4_outcome_stdout_only_witness :
    ((step bothSelectedState (.flash (.ok ⟨0, [255], []⟩))).output =
      (step bothSelectedState (.flash (.ok ⟨1, [255], [101]⟩))).output) ∧
    (step bothSelectedState (.flash (.ok ⟨0, [255], []⟩))).output =
      some "Flashing: Ok(Err(FromUtf8Error \x7b .. \x7d))" :=
  ⟨(c4_outcome_stdout_only bothSelectedState "/tmp/firmware.elf" unoUsbPort
      ⟨0, [255], []⟩ ⟨1, [255], [101]⟩ rfl rfl rfl).1,
   (c4_outcome_stdout_only bothSelectedState "/tmp/firmware.elf" unoUsbPort
      ⟨0, [255], []⟩ ⟨1, [255], [101]⟩ rfl rfl rfl).2 rfl⟩

/-- C6 counterexample: with a profile whose `do_chip_erase` is false and a
port whose name is the literal string "-e", the string "-e" does occur in
the built argument vector. -/
theorem c6_counterexample :
    (BoardSpec.mk "arduino" "atmega328p" false).do_chip_erase = false ∧
    "-e" ∈ avrdudeArgs (BoardSpec.mk "arduino" "atmega328p" false)
      (SerialPortInfo.mk "-e" .Unknown) "/tmp/firmware.elf" :=
  ⟨rfl, by decide⟩

/-- C6 amended: if the profile's `do_chip_erase` is true, "-e" is the last
argument of the built vector; if it is false, the builder appends no erase
flag, so "-e" does not occur anywhere provided none of the input strings
(programmer name, part number, port name) is itself the literal "-e". -/
theorem c6_erase_flag_position (spec : BoardSpec) (port : SerialPortInfo)
    (file : String) :
    (spec.do_chip_erase = true →
      (avrdudeArgs spec port file).getLast? = some "-e") ∧
    (spec.do_chip_erase = false → spec.programmer ≠ "-e" →
      spec.partno ≠ "-e" → port.port_name ≠ "-e" →
      "-e" ∉ avrdudeArgs spec port file) := by
  constructor
  · intro h
    simp only [avrdudeArgs, h, if_true]
    rfl
  · intro h hprog hpart hport hmem
    have hlist : avrdudeArgs spec port file =
        ["-c", spec.programmer, "-p", spec.partno, "-P", port.port_name,
         "-D", "-U", "flash:w:" ++ file] := by
      simp [avrdudeArgs, h]
    rw [hlist] at hmem
    simp only [List.mem_cons, List.mem_nil_iff, or_false] at hmem
    rcases hmem with h1 | h1 | h1 | h1 | h1 | h1 | h1 | h1 | h1
    · exact absurd h1 (by decide)
    · exact hprog h1.symm
    · exact absurd h1 (by decide)
    · exact hpart h1.symm
    · exact absurd h1 (by decide)
    · exact hport h1.symm
    · exact absurd h1 (by decide)
    · exact absurd h1 (by decide)
    · have hlen := congrArg String.length h1
      rw [String.length_append] at hlen
      have h2 : ("-e" : String).length = 2 := rfl
      have h8 : ("flash:w:" : String).length = 8 := rfl
      omega

/-- Witness for C6 amended: the Uno profile (erase true) puts "-e" last;
a profile with erase false and benign inputs produces no "-e" anywhere. -/
theorem c6_erase_flag_position_witness :
    (avrdudeArgs ArduinoBoard.ArduinoUno.spec unoUsbPort
      "/tmp/firmware.elf").getLast? = some "-e" ∧
    "-e" ∉ avrdudeArgs (BoardSpec.mk "arduino" "atmega328p" false) unoUsbPort
      "/tmp/firmware.elf" :=
  ⟨(c6_erase_flag_position ArduinoBoard.ArduinoUno.spec unoUsbPort
      "/tmp/firmware.elf").1 rfl,
   (c6_erase_flag_position (BoardSpec.mk "arduino" "atmega328p" false)
      unoUsbPort "/tmp/firmware.elf").2 rfl (by decide) (by decide) (by decide)⟩

/-- The §3 invariant of the spec: the selected port, if present, is a
member of the last-scanned port list. -/
def PortInv (s : ArduinoInstallerGui) : Prop :=
  ∀ p, s.selected_port = some p → p ∈ s.available_ports

/-- A reachable state violating the C10 invariant: scan finds one port,
the user selects it, then a rescan reports an empty list. -/
def stalePortState : ArduinoInstallerGui :=
  step (step (newState (.ok [unoUsbPort])).1 (.selectPort unoUsbPort))
    (.rescan (.ok []))

/-- C10 counterexample: the state reached by scanning `[unoUsbPort]`,
selecting that port, then rescanning to an empty list is reachable, keeps
the port selected, yet the port is not in the last-scanned list. -/
theorem c10_counterexample :
    Reachable stalePortState ∧
    stalePortState.selected_port = some unoUsbPort ∧
    unoUsbPort ∉ stalePortState.available_ports := by
  refine ⟨?_, rfl, ?_⟩
  · exact Reachable.next _ _
      (Reachable.next _ _ (Reachable.init (.ok [unoUsbPort]))
        (by simp [guiOffers, newState, portscan]))
      trivial
  · simp [stalePortState, step, stepCalls, portscan]

/-- C10 amended: the invariant holds initially and is preserved by every
GUI-emittable intent other than a rescan (port selection only offers
members of the current list); a rescan may leave a stale selection behind. -/
theorem c10_port_member_invariant (s : ArduinoInstallerGui) (i : Intent)
    (r : Except String (List SerialPortInfo))
    (hInv : PortInv s) (hGui : guiOffers s i)
    (hNoRescan : ∀ res, i ≠ Intent.rescan res) :
    PortInv (newState r).1 ∧ PortInv (step s i) := by
  constructor
  · intro p hp
    simp [newState, ArduinoInstallerGui.defaultState] at hp
  · cases i with
    | selectFile res => exact fun p hp => hInv p hp
    | selectBoard b => exact fun p hp => hInv p hp
    | selectPort d =>
      intro p hp
      have hd : d = p := by
        simpa [step, stepCalls] using hp
      exact hd ▸ hGui
    | rescan res => exact absurd rfl (hNoRescan res)
    | flash res =>
      intro p hp
      have hsel : (step s (.flash res)).selected_port = s.selected_port := by
        cases hf : s.file_path <;> cases hpo : s.selected_port <;>
          simp [step, stepCalls, hf, hpo]
      have hav : (step s (.flash res)).available_ports = s.available_ports := by
        cases hf : s.file_path <;> cases hpo : s.selected_port <;>
          simp [step, stepCalls, hf, hpo]
      rw [hav]
      exact hInv p (hsel ▸ hp)

/-- Witness for C10 amended: selecting the one listed port from the state
scanned with `[unoUsbPort]` preserves the invariant. -/
theorem c10_port_member_invariant_witness :
    PortInv (newState (.ok [])).1 ∧
    PortInv (step (newState (.ok [unoUsbPort])).1 (.selectPort unoUsbPort)) :=
  c10_port_member_invariant (newState (.ok [unoUsbPort])).1
    (.selectPort unoUsbPort) (.ok [])
    (fun p hp => by simp [newState, ArduinoInstallerGui.defaultState] at hp)
    (by simp [guiOffers, newState, portscan])
    (fun res h => by cases h)
